import Mathlib

/-!
Verification of the configuration resolution and test-data materialization
pipeline of the `ui_automation` framework (files
`ui_automation/core/config_loader.py` and `ui_automation/utils/data_loader.py`),
as a shallow embedding in Lean 4.

The filesystem is modelled as an association list from file path to the
outcome of reading-and-parsing that file: the YAML/JSON parsers themselves are
outside the scope of the specified component, so a file is represented by
whether it exists and, if so, whether parsing it succeeds (with the parsed
mapping) or raises.  Disk reads are instrumented with a counter, matching the
spec's "verify via call-count instrumentation on the file-reading step".
-/

namespace UIAutomation

/-- A parsed configuration payload.  The loader never inspects the contents of
a configuration, it only stores and returns it; a flat string mapping is enough
to distinguish the contents of distinct files. -/
abbrev Config := List (String × String)

/-- What the disk holds at a given path: a file whose parse succeeds with
payload `cfg`, or a file whose parse raises an exception. -/
inductive FileData where
  | ok (cfg : Config)
  | malformed
deriving DecidableEq, Repr

/-- The filesystem: an association list from full path to file data.  A path
absent from the list does not exist (`os.path.exists` is false). -/
abbrev FS := List (String × FileData)

/-- `os.path.exists`. -/
def existsFile (fs : FS) (path : String) : Bool :=
  (fs.lookup path).isSome

/-- `os.path.join(dir, name)` for a relative `name`, as used by the loader. -/
def pathJoin (dir name : String) : String :=
  dir ++ "/" ++ name

/-- The errors `load_config` can raise:
`parseError p` — the exception propagated by `_load_yaml`/`_load_json` when the
file at `p` is present but malformed;
`readFailure p` — the exception when opening `p` fails (unreachable under the
`os.path.exists` guard in `_try_load_config`);
`notFound name environment` — the `FileNotFoundError` raised by `load_config`,
whose message names both the configuration name and the environment. -/
inductive LoadError where
  | parseError (path : String)
  | readFailure (path : String)
  | notFound (name environment : String)
deriving DecidableEq, Repr

/-- `ConfigLoader._load_yaml`: open the file and parse it; any exception is
logged and re-raised.  Reading a malformed file propagates a parse failure
tagged with the file path. -/
def load_yaml (fs : FS) (file_path : String) : Except LoadError Config :=
  match fs.lookup file_path with
  | some (FileData.ok d) => Except.ok d
  | some FileData.malformed => Except.error (LoadError.parseError file_path)
  | none => Except.error (LoadError.readFailure file_path)

/-- `ConfigLoader._load_json`: same behaviour as `_load_yaml` with the JSON
parser; the parser itself is abstracted identically. -/
def load_json (fs : FS) (file_path : String) : Except LoadError Config :=
  match fs.lookup file_path with
  | some (FileData.ok d) => Except.ok d
  | some FileData.malformed => Except.error (LoadError.parseError file_path)
  | none => Except.error (LoadError.readFailure file_path)

/-- `ConfigLoader._try_load_config`: try `{name}.yaml`, then `{name}.yml`,
then `{name}.json`; the first existing file is opened and parsed (exceptions
propagate), and `none` is returned when no file exists.  The `Nat` component
counts invocations of the file-reading step (`_load_yaml`/`_load_json`). -/
def try_load_config (fs : FS) (config_dir config_name : String) :
    Except LoadError (Option Config) × Nat :=
  let yaml_path := pathJoin config_dir (config_name ++ ".yaml")
  if existsFile fs yaml_path then
    ((load_yaml fs yaml_path).map some, 1)
  else
    let yml_path := pathJoin config_dir (config_name ++ ".yml")
    if existsFile fs yml_path then
      ((load_yaml fs yml_path).map some, 1)
    else
      let json_path := pathJoin config_dir (config_name ++ ".json")
      if existsFile fs json_path then
        ((load_json fs json_path).map some, 1)
      else
        (Except.ok none, 0)

/-- The path the extension search order of `_try_load_config` selects: the
first existing file among `{name}.yaml`, `{name}.yml`, `{name}.json`. -/
def firstFound (fs : FS) (config_dir config_name : String) : Option String :=
  let yaml_path := pathJoin config_dir (config_name ++ ".yaml")
  if existsFile fs yaml_path then some yaml_path
  else
    let yml_path := pathJoin config_dir (config_name ++ ".yml")
    if existsFile fs yml_path then some yml_path
    else
      let json_path := pathJoin config_dir (config_name ++ ".json")
      if existsFile fs json_path then some json_path
      else none

/-- The mutable state of a `ConfigLoader` instance: the configuration
directory and the cache mapping `"{name}_{environment}"` to the resolved
configuration. -/
structure ConfigLoader where
  config_dir : String
  config_cache : List (String × Config)
deriving DecidableEq, Repr

/-- The cache key computed by `load_config`: the bare string concatenation
`f"{config_name}_{environment}"`. -/
def cache_key (config_name environment : String) : String :=
  config_name ++ "_" ++ environment

/-- The outcome of one `load_config` call: the returned value or raised error,
the instance state after the call, and the number of disk reads the call
performed. -/
structure LoadResult where
  ret : Except LoadError Config
  state : ConfigLoader
  reads : Nat
deriving Repr

/-- `ConfigLoader.load_config`: check the cache under
`f"{config_name}_{environment}"`; on a miss try the environment-qualified
name, then (only when `environment != 'default'`) the bare name; raise
`FileNotFoundError` naming both identifiers when neither search finds a file;
on success store the parsed mapping in the cache.  Exceptions from the
file-reading step propagate and nothing is cached.  In the source
`environment` defaults to `"default"` when omitted. -/
def load_config (fs : FS) (self : ConfigLoader) (config_name environment : String) :
    LoadResult :=
  let key := cache_key config_name environment
  match self.config_cache.lookup key with
  | some cfg => ⟨Except.ok cfg, self, 0⟩
  | none =>
    match try_load_config fs self.config_dir (config_name ++ "_" ++ environment) with
    | (Except.error e, n) => ⟨Except.error e, self, n⟩
    | (Except.ok (some d), n) =>
        ⟨Except.ok d, { self with config_cache := (key, d) :: self.config_cache }, n⟩
    | (Except.ok none, n) =>
        if environment ≠ "default" then
          match try_load_config fs self.config_dir config_name with
          | (Except.error e, m) => ⟨Except.error e, self, n + m⟩
          | (Except.ok (some d), m) =>
              ⟨Except.ok d, { self with config_cache := (key, d) :: self.config_cache }, n + m⟩
          | (Except.ok none, m) =>
              ⟨Except.error (LoadError.notFound config_name environment), self, n + m⟩
        else ⟨Except.error (LoadError.notFound config_name environment), self, n⟩

/-!
## Test-data materialization (`ui_automation/utils/data_loader.py`)

`load_test_data` dispatches on the file extension, loads the raw records
(parsing abstracted to the parsed value, as above), and flattens each record
into a positional tuple using the key order of the first record.  Record
values are an arbitrary type `α` (JSON/YAML values are untyped; CSV values are
strings).
-/

/-- A record: a mapping from key to value, with the key order the parser
produced (Python dicts preserve insertion order). -/
abbrev DataRecord (α : Type) := List (String × α)

/-- The top-level parsed value of a JSON or YAML test-data file: a sequence of
mappings, a single mapping, or a scalar. -/
inductive TestData (α : Type) where
  | seq (records : List (DataRecord α))
  | mapping (m : DataRecord α)
  | scalar (v : α)
deriving DecidableEq, Repr

/-- The errors the materialization step can raise:
`shapeError file` — the `ValueError` "test data must be a list of objects"
naming the file; `keyError processed key` — the `KeyError` raised by
`item[key]` on a record missing `key`, instrumented with the number of records
already turned into tuples when it is raised. -/
inductive DataError where
  | shapeError (file : String)
  | keyError (processed : Nat) (key : String)
deriving DecidableEq, Repr

/-- `tuple(item[key] for key in keys)`: read each canonical key from the
record, left to right; the first missing key raises that key. -/
def buildTuple {α : Type} (keys : List String) (item : DataRecord α) :
    Except String (List α) :=
  match keys with
  | [] => Except.ok []
  | k :: ks =>
    match item.lookup k with
    | none => Except.error k
    | some v => (buildTuple ks item).map (fun t => v :: t)

/-- The conversion loop each of the three loaders contains verbatim:
`for item in data: result.append(tuple(item[key] for key in keys))`.
`processed` counts the records already appended to `result`; when a record
raises a `KeyError` the loop aborts, the partial `result` is discarded and the
error carries how many records had been processed. -/
def buildTuples {α : Type} (keys : List String) (items : List (DataRecord α))
    (processed : Nat) : Except DataError (List (List α)) :=
  match items with
  | [] => Except.ok []
  | item :: rest =>
    match buildTuple keys item with
    | Except.error k => Except.error (DataError.keyError processed k)
    | Except.ok t =>
      match buildTuples keys rest (processed + 1) with
      | Except.error e => Except.error e
      | Except.ok ts => Except.ok (t :: ts)

/-- A CSV file as `csv.DictReader` sees it: a header row and data rows.  The
model covers rows whose length matches the header, which `DictReader` turns
into one mapping per row with the header as key order. -/
structure CsvFile where
  header : List String
  rows : List (List String)
deriving DecidableEq, Repr

/-- `csv.DictReader`: each data row becomes a mapping from header name to the
row's value at that column. -/
def dictReader (f : CsvFile) : List (DataRecord String) :=
  f.rows.map (fun r => f.header.zip r)

/-- `DataLoader._load_test_data_from_csv` (after `load_csv` has produced the
list of row mappings): take the column order from the first row's keys and
build one tuple per row; an empty file yields the empty list. -/
def load_test_data_from_csv (f : CsvFile) : Except DataError (List (List String)) :=
  match dictReader f with
  | [] => Except.ok []
  | first :: rest => buildTuples (first.map Prod.fst) (first :: rest) 0

/-- `DataLoader._load_test_data_from_json` (after `load_json` has produced the
parsed value): require the top level to be a list, else raise `ValueError`
naming the file; then take the key order from the first object and build one
tuple per object; an empty list yields the empty list. -/
def load_test_data_from_json {α : Type} (file_name : String) (data : TestData α) :
    Except DataError (List (List α)) :=
  match data with
  | TestData.seq [] => Except.ok []
  | TestData.seq (first :: rest) => buildTuples (first.map Prod.fst) (first :: rest) 0
  | _ => Except.error (DataError.shapeError file_name)

/-- `DataLoader._load_test_data_from_yaml`: identical to the JSON variant in
the source, applied to the YAML-parsed value. -/
def load_test_data_from_yaml {α : Type} (file_name : String) (data : TestData α) :
    Except DataError (List (List α)) :=
  match data with
  | TestData.seq [] => Except.ok []
  | TestData.seq (first :: rest) => buildTuples (first.map Prod.fst) (first :: rest) 0
  | _ => Except.error (DataError.shapeError file_name)

/-- A test-data file together with its parsed content, tagged by the extension
`load_test_data` dispatches on. -/
inductive DataFile (α : Type) where
  | csv (file_name : String) (content : CsvFile)
  | json (file_name : String) (content : TestData α)
  | yaml (file_name : String) (content : TestData α)
deriving Repr

/-- `DataLoader.load_test_data`: dispatch by extension to the matching format
loader.  In the model the extension has already selected the constructor; the
CSV loader only handles string values. -/
def load_test_data (file : DataFile String) : Except DataError (List (List String)) :=
  match file with
  | DataFile.csv _ c => load_test_data_from_csv c
  | DataFile.json n d => load_test_data_from_json n d
  | DataFile.yaml n d => load_test_data_from_yaml n d

/-!
## Lemmas: the search of `_try_load_config` is determined by the first
existing file
-/

/-- `load_json` and `load_yaml` are modelled identically: the parser is
abstracted to the file data. -/
theorem load_json_eq_load_yaml (fs : FS) (p : String) : load_json fs p = load_yaml fs p := rfl

/-- `_try_load_config` reads exactly the first existing file of the search
order (and nothing when no file exists). -/
theorem try_load_config_eq_firstFound (fs : FS) (dir b : String) :
    try_load_config fs dir b =
      match firstFound fs dir b with
      | some p => (Except.map some (load_yaml fs p), 1)
      | none => (Except.ok none, 0) := by
  simp only [try_load_config, firstFound]
  split_ifs <;> rfl

theorem try_load_config_of_firstFound_none (fs : FS) (dir b : String)
    (h : firstFound fs dir b = none) :
    try_load_config fs dir b = (Except.ok none, 0) := by
  rw [try_load_config_eq_firstFound, h]

theorem try_load_config_of_firstFound_ok (fs : FS) (dir b p : String) (c : Config)
    (h : firstFound fs dir b = some p) (hc : fs.lookup p = some (FileData.ok c)) :
    try_load_config fs dir b = (Except.ok (some c), 1) := by
  rw [try_load_config_eq_firstFound, h]
  simp [load_yaml, hc, Except.map]

theorem try_load_config_of_firstFound_malformed (fs : FS) (dir b p : String)
    (h : firstFound fs dir b = some p) (hc : fs.lookup p = some FileData.malformed) :
    try_load_config fs dir b = (Except.error (LoadError.parseError p), 1) := by
  rw [try_load_config_eq_firstFound, h]
  simp [load_yaml, hc, Except.map]

theorem try_load_config_reads_le_one (fs : FS) (dir b : String) :
    (try_load_config fs dir b).2 ≤ 1 := by
  rw [try_load_config_eq_firstFound]
  cases firstFound fs dir b <;> simp

theorem try_load_config_ok_none_reads (fs : FS) (dir b : String) (n : Nat)
    (h : try_load_config fs dir b = (Except.ok none, n)) : n = 0 := by
  rw [try_load_config_eq_firstFound] at h
  cases hf : firstFound fs dir b <;> rw [hf] at h
  · exact (Prod.mk.injEq _ _ _ _ ▸ h).2.symm
  · rename_i p
    cases hl : load_yaml fs p <;> simp [Except.map, hl] at h


/-!
## Lemmas: the branches of `load_config`
-/

theorem load_config_cache_hit (fs : FS) (self : ConfigLoader) (name env : String)
    (cfg : Config) (h : self.config_cache.lookup (cache_key name env) = some cfg) :
    load_config fs self name env = ⟨Except.ok cfg, self, 0⟩ := by
  simp only [load_config, h]

theorem load_config_miss_env_error (fs : FS) (self : ConfigLoader) (name env : String)
    (e : LoadError) (n : Nat)
    (hm : self.config_cache.lookup (cache_key name env) = none)
    (ht : try_load_config fs self.config_dir (name ++ "_" ++ env) = (Except.error e, n)) :
    load_config fs self name env = ⟨Except.error e, self, n⟩ := by
  simp only [load_config, hm, ht]

theorem load_config_miss_env_found (fs : FS) (self : ConfigLoader) (name env : String)
    (d : Config) (n : Nat)
    (hm : self.config_cache.lookup (cache_key name env) = none)
    (ht : try_load_config fs self.config_dir (name ++ "_" ++ env) = (Except.ok (some d), n)) :
    load_config fs self name env =
      ⟨Except.ok d,
       { self with config_cache := (cache_key name env, d) :: self.config_cache }, n⟩ := by
  simp only [load_config, hm, ht]

theorem load_config_default_miss (fs : FS) (self : ConfigLoader) (name : String) (n : Nat)
    (hm : self.config_cache.lookup (cache_key name "default") = none)
    (ht : try_load_config fs self.config_dir (name ++ "_" ++ "default") = (Except.ok none, n)) :
    load_config fs self name "default" =
      ⟨Except.error (LoadError.notFound name "default"), self, n⟩ := by
  simp only [load_config, hm, ht, ne_eq, not_true_eq_false, if_false]

theorem load_config_fallback_error (fs : FS) (self : ConfigLoader) (name env : String)
    (e : LoadError) (n m : Nat) (hne : env ≠ "default")
    (hm : self.config_cache.lookup (cache_key name env) = none)
    (ht : try_load_config fs self.config_dir (name ++ "_" ++ env) = (Except.ok none, n))
    (ht2 : try_load_config fs self.config_dir name = (Except.error e, m)) :
    load_config fs self name env = ⟨Except.error e, self, n + m⟩ := by
  simp only [load_config, hm, ht, ht2, ne_eq, hne, not_false_eq_true, if_true]

theorem load_config_fallback_found (fs : FS) (self : ConfigLoader) (name env : String)
    (d : Config) (n m : Nat) (hne : env ≠ "default")
    (hm : self.config_cache.lookup (cache_key name env) = none)
    (ht : try_load_config fs self.config_dir (name ++ "_" ++ env) = (Except.ok none, n))
    (ht2 : try_load_config fs self.config_dir name = (Except.ok (some d), m)) :
    load_config fs self name env =
      ⟨Except.ok d,
       { self with config_cache := (cache_key name env, d) :: self.config_cache }, n + m⟩ := by
  simp only [load_config, hm, ht, ht2, ne_eq, hne, not_false_eq_true, if_true]

theorem load_config_fallback_miss (fs : FS) (self : ConfigLoader) (name env : String)
    (n m : Nat) (hne : env ≠ "default")
    (hm : self.config_cache.lookup (cache_key name env) = none)
    (ht : try_load_config fs self.config_dir (name ++ "_" ++ env) = (Except.ok none, n))
    (ht2 : try_load_config fs self.config_dir name = (Except.ok none, m)) :
    load_config fs self name env = ⟨Except.error (LoadError.notFound name env), self, n + m⟩ := by
  simp only [load_config, hm, ht, ht2, ne_eq, hne, not_false_eq_true, if_true]

theorem lookup_cons_self (key : String) (d : Config) (rest : List (String × Config)) :
    List.lookup key ((key, d) :: rest) = some d := by
  simp [List.lookup]


/-!
## Claims
-/

/-- C1, counterexample.  The claim asserts at most one disk read per distinct
`(name, environment)` pair even across call sequences in which a load attempt
fails.  With a malformed file `cfg/a_dev.yaml`, each of two consecutive
`load_config("a", "dev")` calls on the same instance fails with a parse error,
caches nothing, and reads the file again: two disk reads for one pair, and no
cached mapping is ever returned. -/
theorem load_config_double_read_on_parse_failure :
    (load_config [("cfg/a_dev.yaml", FileData.malformed)] ⟨"cfg", []⟩ "a" "dev").reads
      + (load_config [("cfg/a_dev.yaml", FileData.malformed)]
          (load_config [("cfg/a_dev.yaml", FileData.malformed)] ⟨"cfg", []⟩ "a" "dev").state
          "a" "dev").reads = 2 ∧
    ¬ ((load_config [("cfg/a_dev.yaml", FileData.malformed)] ⟨"cfg", []⟩ "a" "dev").reads
        + (load_config [("cfg/a_dev.yaml", FileData.malformed)]
            (load_config [("cfg/a_dev.yaml", FileData.malformed)] ⟨"cfg", []⟩ "a" "dev").state
            "a" "dev").reads ≤ 1) ∧
    (load_config [("cfg/a_dev.yaml", FileData.malformed)] ⟨"cfg", []⟩ "a" "dev").ret
      = Except.error (LoadError.parseError "cfg/a_dev.yaml") :=
  ⟨rfl, by decide, rfl⟩

/-- C1, amended.  For every `(name, environment)` pair whose first
`load_config` call on a resolver instance succeeds, a second call returns the
identical cached mapping stored by the first, performs no disk read, and
leaves the state unchanged; the first call itself reads from disk at most
once, so a pair whose load succeeds costs at most one disk read for the
lifetime of the instance.  (When a load attempt fails, nothing is cached and a
later call may read the same file again.) -/
theorem load_config_second_call_cached (fs : FS) (self : ConfigLoader)
    (name env : String) (cfg : Config)
    (h : (load_config fs self name env).ret = Except.ok cfg) :
    load_config fs (load_config fs self name env).state name env
        = ⟨Except.ok cfg, (load_config fs self name env).state, 0⟩ ∧
      (load_config fs self name env).reads ≤ 1 := by
  cases hc : self.config_cache.lookup (cache_key name env) with
  | some c =>
      rw [load_config_cache_hit fs self name env c hc] at h ⊢
      simp only [LoadResult.ret] at h
      have hcd : cfg = c := by symm; simpa using h
      rw [hcd]
      exact ⟨load_config_cache_hit fs self name env c hc, Nat.zero_le 1⟩
  | none =>
      rcases hr : try_load_config fs self.config_dir (name ++ "_" ++ env) with ⟨r, n⟩
      cases r with
      | error e =>
          rw [load_config_miss_env_error fs self name env e n hc hr] at h
          simp at h
      | ok o =>
          cases o with
          | some d =>
              have hle : n ≤ 1 := by
                have h1 := try_load_config_reads_le_one fs self.config_dir (name ++ "_" ++ env)
                rw [hr] at h1
                exact h1
              rw [load_config_miss_env_found fs self name env d n hc hr] at h ⊢
              simp only [LoadResult.ret] at h
              have hcd : cfg = d := by symm; simpa using h
              rw [hcd]
              exact ⟨load_config_cache_hit fs _ name env d (lookup_cons_self _ _ _), hle⟩
          | none =>
              by_cases he : env = "default"
              · subst he
                rw [load_config_default_miss fs self name n hc hr] at h
                simp at h
              · rcases hr2 : try_load_config fs self.config_dir name with ⟨r2, m⟩
                cases r2 with
                | error e =>
                    rw [load_config_fallback_error fs self name env e n m he hc hr hr2] at h
                    simp at h
                | ok o2 =>
                    cases o2 with
                    | some d =>
                        have hn0 : n = 0 := try_load_config_ok_none_reads fs _ _ n hr
                        have hle : m ≤ 1 := by
                          have h1 := try_load_config_reads_le_one fs self.config_dir name
                          rw [hr2] at h1
                          exact h1
                        rw [load_config_fallback_found fs self name env d n m he hc hr hr2] at h ⊢
                        simp only [LoadResult.ret] at h
                        have hcd : cfg = d := by symm; simpa using h
                        rw [hcd]
                        refine ⟨load_config_cache_hit fs _ name env d (lookup_cons_self _ _ _), ?_⟩
                        simpa [hn0] using hle
                    | none =>
                        rw [load_config_fallback_miss fs self name env n m he hc hr hr2] at h
                        simp at h

/-- C1, witness for the amended theorem at a concrete successful load. -/
theorem load_config_second_call_cached_witness :
    (load_config [("cfg/a_default.yaml", FileData.ok [("k", "1")])] ⟨"cfg", []⟩
        "a" "default").ret = Except.ok [("k", "1")] ∧
      (load_config [("cfg/a_default.yaml", FileData.ok [("k", "1")])]
          (load_config [("cfg/a_default.yaml", FileData.ok [("k", "1")])] ⟨"cfg", []⟩
            "a" "default").state "a" "default"
          = ⟨Except.ok [("k", "1")],
             (load_config [("cfg/a_default.yaml", FileData.ok [("k", "1")])] ⟨"cfg", []⟩
               "a" "default").state, 0⟩ ∧
        (load_config [("cfg/a_default.yaml", FileData.ok [("k", "1")])] ⟨"cfg", []⟩
            "a" "default").reads ≤ 1) :=
  ⟨rfl, load_config_second_call_cached _ _ "a" "default" [("k", "1")] rfl⟩


/-- C2: for every environment other than `"default"`, when no
`{name}_{environment}.(yaml|yml|json)` file exists, `load_config` falls back
to the un-suffixed `{name}.(yaml|yml|json)` search: if that search finds a
well-formed file its parsed content is returned, and if it finds nothing the
call fails with a "configuration not found" error identifying both the name
and the environment. -/
theorem load_config_fallback_and_not_found (fs : FS) (self : ConfigLoader)
    (name env : String) (hne : env ≠ "default")
    (hm : self.config_cache.lookup (cache_key name env) = none)
    (hnoenv : firstFound fs self.config_dir (name ++ "_" ++ env) = none) :
    (∀ p cfg, firstFound fs self.config_dir name = some p →
        fs.lookup p = some (FileData.ok cfg) →
        (load_config fs self name env).ret = Except.ok cfg) ∧
      (firstFound fs self.config_dir name = none →
        (load_config fs self name env).ret
          = Except.error (LoadError.notFound name env)) := by
  have ht := try_load_config_of_firstFound_none fs self.config_dir _ hnoenv
  constructor
  · intro p cfg hf hp
    have ht2 := try_load_config_of_firstFound_ok fs self.config_dir name p cfg hf hp
    rw [load_config_fallback_found fs self name env cfg 0 1 hne hm ht ht2]
  · intro hf
    have ht2 := try_load_config_of_firstFound_none fs self.config_dir name hf
    rw [load_config_fallback_miss fs self name env 0 0 hne hm ht ht2]

/-- C2, witness: with only `cfg/a.yaml` on disk, `load_config("a", "dev")`
returns its content, and with an empty disk it fails with not-found. -/
theorem load_config_fallback_and_not_found_witness :
    (("dev" : String) ≠ "default" ∧
        (ConfigLoader.mk "cfg" []).config_cache.lookup (cache_key "a" "dev") = none ∧
        firstFound [("cfg/a.yaml", FileData.ok [("k", "1")])] "cfg" ("a" ++ "_" ++ "dev")
          = none) ∧
      (load_config [("cfg/a.yaml", FileData.ok [("k", "1")])] ⟨"cfg", []⟩ "a" "dev").ret
          = Except.ok [("k", "1")] ∧
      (load_config ([] : FS) ⟨"cfg", []⟩ "a" "dev").ret
          = Except.error (LoadError.notFound "a" "dev") :=
  ⟨⟨by decide, rfl, rfl⟩,
   (load_config_fallback_and_not_found [("cfg/a.yaml", FileData.ok [("k", "1")])]
       ⟨"cfg", []⟩ "a" "dev" (by decide) rfl rfl).1 "cfg/a.yaml" [("k", "1")] rfl rfl,
   (load_config_fallback_and_not_found ([] : FS)
       ⟨"cfg", []⟩ "a" "dev" (by decide) rfl rfl).2 rfl⟩

/-- C4: the extension search of `_try_load_config` tries `.yaml`, then
`.yml`, then `.json`, and the first existing file wins: a well-formed
`{name}.yaml` is parsed and returned whatever else exists, and with no
`{name}.yaml` a well-formed `{name}.yml` is parsed and returned even when
`{name}.json` exists. -/
theorem try_load_config_extension_order (fs : FS) (dir name : String) (cfg : Config) :
    (existsFile fs (pathJoin dir (name ++ ".yaml")) = true →
        fs.lookup (pathJoin dir (name ++ ".yaml")) = some (FileData.ok cfg) →
        try_load_config fs dir name = (Except.ok (some cfg), 1)) ∧
      (existsFile fs (pathJoin dir (name ++ ".yaml")) = false →
        existsFile fs (pathJoin dir (name ++ ".yml")) = true →
        fs.lookup (pathJoin dir (name ++ ".yml")) = some (FileData.ok cfg) →
        try_load_config fs dir name = (Except.ok (some cfg), 1)) := by
  constructor
  · intro h1 h2
    have hf : firstFound fs dir name = some (pathJoin dir (name ++ ".yaml")) := by
      simp only [firstFound]
      rw [if_pos h1]
    exact try_load_config_of_firstFound_ok fs dir name _ cfg hf h2
  · intro h1 h2 h3
    have hf : firstFound fs dir name = some (pathJoin dir (name ++ ".yml")) := by
      simp only [firstFound]
      rw [if_neg (by simp [h1]), if_pos h2]
    exact try_load_config_of_firstFound_ok fs dir name _ cfg hf h3

/-- C4, witness: with both `cfg/a.yaml` and `cfg/a.json` present the `.yaml`
content wins; with `cfg/a.yml` and `cfg/a.json` present (no `.yaml`) the
`.yml` content wins. -/
theorem try_load_config_extension_order_witness :
    (existsFile [("cfg/a.yaml", FileData.ok [("k", "yaml")]),
          ("cfg/a.json", FileData.ok [("k", "json")])] (pathJoin "cfg" ("a" ++ ".yaml"))
        = true ∧
      try_load_config [("cfg/a.yaml", FileData.ok [("k", "yaml")]),
          ("cfg/a.json", FileData.ok [("k", "json")])] "cfg" "a"
        = (Except.ok (some [("k", "yaml")]), 1)) ∧
    (existsFile [("cfg/a.yml", FileData.ok [("k", "yml")]),
          ("cfg/a.json", FileData.ok [("k", "json")])] (pathJoin "cfg" ("a" ++ ".yaml"))
        = false ∧
      try_load_config [("cfg/a.yml", FileData.ok [("k", "yml")]),
          ("cfg/a.json", FileData.ok [("k", "json")])] "cfg" "a"
        = (Except.ok (some [("k", "yml")]), 1)) :=
  ⟨⟨rfl,
    (try_load_config_extension_order [("cfg/a.yaml", FileData.ok [("k", "yaml")]),
        ("cfg/a.json", FileData.ok [("k", "json")])] "cfg" "a" [("k", "yaml")]).1 rfl rfl⟩,
   ⟨rfl,
    (try_load_config_extension_order [("cfg/a.yml", FileData.ok [("k", "yml")]),
        ("cfg/a.json", FileData.ok [("k", "json")])] "cfg" "a" [("k", "yml")]).2 rfl rfl rfl⟩⟩

/-- C8: when the file the search order selects exists but is malformed —
whether found under the environment-qualified name or under the un-suffixed
fallback name — `load_config` propagates a "configuration parse failure"
error tagged with that file's path, which is distinct from (and never
reported as) the not-found error. -/
theorem load_config_parse_failure_propagates (fs : FS) (self : ConfigLoader)
    (name env p : String)
    (hm : self.config_cache.lookup (cache_key name env) = none) :
    (firstFound fs self.config_dir (name ++ "_" ++ env) = some p →
        fs.lookup p = some FileData.malformed →
        (load_config fs self name env).ret = Except.error (LoadError.parseError p) ∧
          ∀ n e, LoadError.parseError p ≠ LoadError.notFound n e) ∧
      (env ≠ "default" →
        firstFound fs self.config_dir (name ++ "_" ++ env) = none →
        firstFound fs self.config_dir name = some p →
        fs.lookup p = some FileData.malformed →
        (load_config fs self name env).ret = Except.error (LoadError.parseError p) ∧
          ∀ n e, LoadError.parseError p ≠ LoadError.notFound n e) := by
  constructor
  · intro hf hp
    have ht := try_load_config_of_firstFound_malformed fs self.config_dir _ p hf hp
    rw [load_config_miss_env_error fs self name env _ 1 hm ht]
    exact ⟨rfl, fun n e h => LoadError.noConfusion h⟩
  · intro hne hf1 hf2 hp
    have ht := try_load_config_of_firstFound_none fs self.config_dir _ hf1
    have ht2 := try_load_config_of_firstFound_malformed fs self.config_dir name p hf2 hp
    rw [load_config_fallback_error fs self name env _ 0 1 hne hm ht ht2]
    exact ⟨rfl, fun n e h => LoadError.noConfusion h⟩

/-- C8, witness: a malformed `cfg/a_dev.yaml` surfaces as a parse failure
tagged with its path. -/
theorem load_config_parse_failure_propagates_witness :
    firstFound [("cfg/a_dev.yaml", FileData.malformed)] "cfg" ("a" ++ "_" ++ "dev")
        = some "cfg/a_dev.yaml" ∧
      (load_config [("cfg/a_dev.yaml", FileData.malformed)] ⟨"cfg", []⟩ "a" "dev").ret
          = Except.error (LoadError.parseError "cfg/a_dev.yaml") ∧
        ∀ n e, LoadError.parseError "cfg/a_dev.yaml" ≠ LoadError.notFound n e :=
  ⟨rfl,
   (load_config_parse_failure_propagates [("cfg/a_dev.yaml", FileData.malformed)]
       ⟨"cfg", []⟩ "a" "dev" "cfg/a_dev.yaml" rfl).1 rfl rfl⟩

/-- C9: the cache key `f"{name}_{environment}"` is not injective: the distinct
pairs `("a_b", "c")` and `("a", "b_c")` share the key `"a_b_c"`.  Resolved
fresh from disk the two pairs give different mappings (their fallback files
`cfg/a_b.yaml` and `cfg/a.yaml` differ), yet after a successful
`load_config("a_b", "c")` the call `load_config("a", "b_c")` returns the
first pair's cached mapping with no disk read. -/
theorem cache_key_collision_aliasing :
    cache_key "a_b" "c" = cache_key "a" "b_c" ∧
    ("a_b", "c") ≠ (("a", "b_c") : String × String) ∧
    (load_config [("cfg/a_b.yaml", FileData.ok [("k", "1")]),
        ("cfg/a.yaml", FileData.ok [("k", "2")])] ⟨"cfg", []⟩ "a_b" "c").ret
      = Except.ok [("k", "1")] ∧
    (load_config [("cfg/a_b.yaml", FileData.ok [("k", "1")]),
        ("cfg/a.yaml", FileData.ok [("k", "2")])] ⟨"cfg", []⟩ "a" "b_c").ret
      = Except.ok [("k", "2")] ∧
    load_config [("cfg/a_b.yaml", FileData.ok [("k", "1")]),
        ("cfg/a.yaml", FileData.ok [("k", "2")])]
        (load_config [("cfg/a_b.yaml", FileData.ok [("k", "1")]),
          ("cfg/a.yaml", FileData.ok [("k", "2")])] ⟨"cfg", []⟩ "a_b" "c").state "a" "b_c"
      = ⟨Except.ok [("k", "1")],
         (load_config [("cfg/a_b.yaml", FileData.ok [("k", "1")]),
           ("cfg/a.yaml", FileData.ok [("k", "2")])] ⟨"cfg", []⟩ "a_b" "c").state, 0⟩ :=
  ⟨rfl, by decide, rfl, rfl, rfl⟩

/-- C10: with environment `"default"` (the source's default when the argument
is omitted), only the `{name}_default.(yaml|yml|json)` files are searched: the
un-suffixed fallback is never consulted, so when no `{name}_default` file
exists the call fails with not-found and performs zero disk reads, whatever
`{name}.(yaml|yml|json)` files exist. -/
theorem load_config_default_env_no_fallback (fs : FS) (self : ConfigLoader) (name : String)
    (hm : self.config_cache.lookup (cache_key name "default") = none)
    (h : firstFound fs self.config_dir (name ++ "_" ++ "default") = none) :
    load_config fs self name "default"
      = ⟨Except.error (LoadError.notFound name "default"), self, 0⟩ := by
  have ht := try_load_config_of_firstFound_none fs self.config_dir _ h
  exact load_config_default_miss fs self name 0 hm ht

/-- C10, witness: a directory containing only a well-formed `cfg/a.yaml`
still yields not-found for `load_config("a", "default")`, with no disk
read. -/
theorem load_config_default_env_no_fallback_witness :
    existsFile [("cfg/a.yaml", FileData.ok [("k", "1")])] (pathJoin "cfg" ("a" ++ ".yaml"))
        = true ∧
      load_config [("cfg/a.yaml", FileData.ok [("k", "1")])] ⟨"cfg", []⟩ "a" "default"
        = ⟨Except.error (LoadError.notFound "a" "default"), ⟨"cfg", []⟩, 0⟩ :=
  ⟨rfl,
   load_config_default_env_no_fallback [("cfg/a.yaml", FileData.ok [("k", "1")])]
     ⟨"cfg", []⟩ "a" rfl rfl⟩


/-!
## Lemmas: the tuple-building loop
-/

theorem buildTuple_ok {α : Type} [Inhabited α] (keys : List String) (item : DataRecord α)
    (h : ∀ k ∈ keys, (item.lookup k).isSome) :
    buildTuple keys item = Except.ok (keys.map fun k => (item.lookup k).getD default) := by
  induction keys with
  | nil => rfl
  | cons k ks ih =>
      obtain ⟨v, hv⟩ := Option.isSome_iff_exists.mp (h k (List.mem_cons_self k ks))
      have ih' := ih (fun x hx => h x (List.mem_cons_of_mem k hx))
      simp [buildTuple, hv, ih', Except.map]

theorem buildTuples_ok {α : Type} [Inhabited α] (keys : List String)
    (items : List (DataRecord α))
    (h : ∀ r ∈ items, ∀ k ∈ keys, (r.lookup k).isSome) (processed : Nat) :
    buildTuples keys items processed
      = Except.ok (items.map fun r => keys.map fun k => (r.lookup k).getD default) := by
  induction items generalizing processed with
  | nil => rfl
  | cons r rs ih =>
      have hr := buildTuple_ok keys r (h r (List.mem_cons_self r rs))
      have ih' := ih (fun x hx => h x (List.mem_cons_of_mem r hx)) (processed + 1)
      simp [buildTuples, hr, ih']

theorem buildTuple_missing_key {α : Type} (keys : List String) (item : DataRecord α)
    (k' : String) (h : keys.find? (fun k => (item.lookup k).isNone) = some k') :
    buildTuple keys item = Except.error k' := by
  induction keys with
  | nil => simp at h
  | cons k ks ih =>
      by_cases hk : (item.lookup k).isNone
      · rw [List.find?_cons_of_pos _ (by simpa using hk)] at h
        obtain rfl : k = k' := by simpa using h
        simp [buildTuple, Option.isNone_iff_eq_none.mp hk]
      · rw [List.find?_cons_of_neg _ (by simpa using hk)] at h
        have hs : (item.lookup k).isSome :=
          Option.ne_none_iff_isSome.mp (fun hn => hk (Option.isNone_iff_eq_none.mpr hn))
        obtain ⟨v, hv⟩ := Option.isSome_iff_exists.mp hs
        simp [buildTuple, hv, ih h, Except.map]

theorem buildTuples_error_at {α : Type} [Inhabited α] (keys : List String)
    (good : List (DataRecord α)) (bad : DataRecord α) (rest : List (DataRecord α))
    (k' : String)
    (hgood : ∀ r ∈ good, ∀ k ∈ keys, (r.lookup k).isSome)
    (hbad : keys.find? (fun k => (bad.lookup k).isNone) = some k') (processed : Nat) :
    buildTuples keys (good ++ bad :: rest) processed
      = Except.error (DataError.keyError (processed + good.length) k') := by
  induction good generalizing processed with
  | nil => simp [buildTuples, buildTuple_missing_key keys bad k' hbad]
  | cons g gs ih =>
      have hg := buildTuple_ok keys g (hgood g (List.mem_cons_self g gs))
      have ih' := ih (fun x hx => hgood x (List.mem_cons_of_mem g hx)) (processed + 1)
      simp only [List.cons_append, buildTuples, hg, List.append_eq, ih', List.length_cons]
      have harith : processed + 1 + gs.length = processed + (gs.length + 1) := by omega
      rw [harith]

/-- Every key drawn from a record's own key list is found in that record. -/
theorem lookup_isSome_of_mem_keys {α : Type} (item : DataRecord α) (k : String)
    (h : k ∈ item.map Prod.fst) : (item.lookup k).isSome := by
  induction item with
  | nil => simp at h
  | cons p ps ih =>
      rcases List.mem_cons.mp h with hk | hk
      · simp [List.lookup, hk]
      · by_cases he : k == p.1
        · simp [List.lookup, he]
        · simp [List.lookup, he, ih hk]


/-- C3: for a test-data file (CSV, JSON or YAML) holding records
`first :: rest` in which every record contains every key of the first record,
`load_test_data` returns one tuple per record, in input order, each of arity
equal to the first record's key count, with the j-th component of the i-th
tuple the i-th record's value at the first record's j-th key. -/
theorem load_test_data_tuple_shape (cname jname yname : String)
    (first : DataRecord String) (rest : List (DataRecord String))
    (h : ∀ r ∈ first :: rest, ∀ k ∈ first.map Prod.fst, (r.lookup k).isSome) :
    load_test_data (DataFile.json jname (TestData.seq (first :: rest)))
        = Except.ok ((first :: rest).map fun r =>
            (first.map Prod.fst).map fun k => (r.lookup k).getD default) ∧
      load_test_data (DataFile.yaml yname (TestData.seq (first :: rest)))
        = Except.ok ((first :: rest).map fun r =>
            (first.map Prod.fst).map fun k => (r.lookup k).getD default) ∧
      (∀ c : CsvFile, dictReader c = first :: rest →
        load_test_data (DataFile.csv cname c)
          = Except.ok ((first :: rest).map fun r =>
              (first.map Prod.fst).map fun k => (r.lookup k).getD default)) ∧
      ((first :: rest).map fun r =>
          (first.map Prod.fst).map fun k => (r.lookup k).getD default).length
        = (first :: rest).length ∧
      ∀ t ∈ ((first :: rest).map fun r =>
          (first.map Prod.fst).map fun k => (r.lookup k).getD default),
        t.length = (first.map Prod.fst).length := by
  have hb := buildTuples_ok (first.map Prod.fst) (first :: rest) h 0
  refine ⟨?_, ?_, ?_, ?_, ?_⟩
  · simpa [load_test_data, load_test_data_from_json] using hb
  · simpa [load_test_data, load_test_data_from_yaml] using hb
  · intro c hc
    simp [load_test_data, load_test_data_from_csv, hc, hb]
  · simp
  · intro t ht
    obtain ⟨r, hr, rfl⟩ := List.mem_map.mp ht
    simp

/-- C3, witness at two records with keys `a, b`, for all three formats. -/
theorem load_test_data_tuple_shape_witness :
    (∀ r ∈ [[("a", "1"), ("b", "2")], [("a", "3"), ("b", "4")]],
        ∀ k ∈ ([("a", "1"), ("b", "2")] : DataRecord String).map Prod.fst,
          (r.lookup k).isSome) ∧
      load_test_data (DataFile.json "d.json"
          (TestData.seq [[("a", "1"), ("b", "2")], [("a", "3"), ("b", "4")]]))
        = Except.ok [["1", "2"], ["3", "4"]] :=
  ⟨by decide,
   ((load_test_data_tuple_shape "d.csv" "d.json" "d.yaml" [("a", "1"), ("b", "2")]
       [[("a", "3"), ("b", "4")]] (by decide)).1).trans rfl⟩

/-- C5: for a JSON or YAML test-data sequence `first :: mid ++ bad :: rest`
whose prefix records all contain the first record's keys while `bad` lacks
one, `load_test_data` raises the key-lookup error while processing `bad` —
after the `mid.length + 1` preceding records have been turned into tuples,
not in an upfront validation pass — reporting the first canonical key missing
from `bad`, and returns no partial tuple sequence. -/
theorem load_test_data_late_key_error (jname yname : String)
    (first : DataRecord String) (mid : List (DataRecord String))
    (bad : DataRecord String) (rest : List (DataRecord String)) (k' : String)
    (hmid : ∀ r ∈ mid, ∀ k ∈ first.map Prod.fst, (r.lookup k).isSome)
    (hbad : (first.map Prod.fst).find? (fun k => (bad.lookup k).isNone) = some k') :
    load_test_data (DataFile.json jname (TestData.seq (first :: (mid ++ bad :: rest))))
        = Except.error (DataError.keyError (mid.length + 1) k') ∧
      load_test_data (DataFile.yaml yname (TestData.seq (first :: (mid ++ bad :: rest))))
        = Except.error (DataError.keyError (mid.length + 1) k') ∧
      ∀ ts, load_test_data (DataFile.json jname
          (TestData.seq (first :: (mid ++ bad :: rest)))) ≠ Except.ok ts := by
  have hgood : ∀ r ∈ first :: mid, ∀ k ∈ first.map Prod.fst, (r.lookup k).isSome := by
    intro r hr k hk
    rcases List.mem_cons.mp hr with hr | hr
    · exact hr ▸ lookup_isSome_of_mem_keys first k hk
    · exact hmid r hr k hk
  have hb := buildTuples_error_at (first.map Prod.fst) (first :: mid) bad rest k' hgood hbad 0
  simp only [List.cons_append, List.length_cons, Nat.zero_add] at hb
  refine ⟨?_, ?_, ?_⟩
  · simpa [load_test_data, load_test_data_from_json] using hb
  · simpa [load_test_data, load_test_data_from_yaml] using hb
  · intro ts
    simp [load_test_data, load_test_data_from_json, hb]

/-- C5, witness: the second record `{"a": "3"}` lacks key `b`; the error is
raised with one record already processed and reports `b`. -/
theorem load_test_data_late_key_error_witness :
    ((([("a", "1"), ("b", "2")] : DataRecord String).map Prod.fst).find?
        (fun k => ((([("a", "3")] : DataRecord String)).lookup k).isNone) = some "b") ∧
      load_test_data (DataFile.json "d.json"
          (TestData.seq [[("a", "1"), ("b", "2")], [("a", "3")]]))
        = Except.error (DataError.keyError 1 "b") :=
  ⟨by decide,
   (load_test_data_late_key_error "d.json" "d.yaml" [("a", "1"), ("b", "2")] []
       [("a", "3")] [] "b" (by decide) (by decide)).1⟩

/-- C6: a JSON or YAML test-data file whose top-level parsed value is not a
sequence (a single mapping, or a scalar) fails with the shape-mismatch error
naming the file, and never returns a result — in particular not a silent
empty one. -/
theorem load_test_data_shape_mismatch (jname yname : String) (d : TestData String)
    (h : ∀ rs, d ≠ TestData.seq rs) :
    load_test_data (DataFile.json jname d) = Except.error (DataError.shapeError jname) ∧
      load_test_data (DataFile.yaml yname d) = Except.error (DataError.shapeError yname) ∧
      (∀ ts, load_test_data (DataFile.json jname d) ≠ Except.ok ts) ∧
      (∀ ts, load_test_data (DataFile.yaml yname d) ≠ Except.ok ts) := by
  cases d with
  | seq rs => exact absurd rfl (h rs)
  | mapping m => simp [load_test_data, load_test_data_from_json, load_test_data_from_yaml]
  | scalar v => simp [load_test_data, load_test_data_from_json, load_test_data_from_yaml]

/-- C6, witness at a top-level single mapping. -/
theorem load_test_data_shape_mismatch_witness :
    load_test_data (DataFile.json "d.json" (TestData.mapping [("a", "1")]))
        = Except.error (DataError.shapeError "d.json") ∧
      ∀ ts, load_test_data (DataFile.json "d.json" (TestData.mapping [("a", "1")]))
        ≠ Except.ok ts :=
  ⟨(load_test_data_shape_mismatch "d.json" "d.yaml" (TestData.mapping [("a", "1")])
      (fun _ h => TestData.noConfusion h)).1,
   (load_test_data_shape_mismatch "d.json" "d.yaml" (TestData.mapping [("a", "1")])
      (fun _ h => TestData.noConfusion h)).2.2.1⟩

/-- C7: the CSV, JSON and YAML materialization paths agree on equivalent
content: the fixture with rows `{"a": "1", "b": "2"}` and
`{"a": "3", "b": "4"}` yields `[("1", "2"), ("3", "4")]` in all three
formats. -/
theorem load_test_data_format_agreement :
    load_test_data (DataFile.csv "d.csv" ⟨["a", "b"], [["1", "2"], ["3", "4"]]⟩)
        = Except.ok [["1", "2"], ["3", "4"]] ∧
      load_test_data (DataFile.json "d.json"
          (TestData.seq [[("a", "1"), ("b", "2")], [("a", "3"), ("b", "4")]]))
        = Except.ok [["1", "2"], ["3", "4"]] ∧
      load_test_data (DataFile.yaml "d.yaml"
          (TestData.seq [[("a", "1"), ("b", "2")], [("a", "3"), ("b", "4")]]))
        = Except.ok [["1", "2"], ["3", "4"]] :=
  ⟨rfl, rfl, rfl⟩

end UIAutomation
